import Mathlib

/-!
Shallow embedding of `conanfile.py` from the Conan Extension for LabVIEW
repository.  The pure string logic is translated directly; interactions
with the filesystem, git and the external LabVIEW CLI are modelled by
passing their observable results (directory listings, command outputs)
as explicit parameters.
-/

/-- Models Python `fnmatch(filename, '*.lvproj')` under case-sensitive
`os.path.normcase`: the glob `*.lvproj` matches exactly the strings that
end in `.lvproj`. -/
def fnmatch_lvproj (filename : String) : Bool :=
  List.isSuffixOf ".lvproj".data filename.data

/-- Index of the last `'.'` in a list of characters, if any. -/
def lastDotIdx : List Char → Option Nat
  | [] => none
  | c :: rest =>
    match lastDotIdx rest with
    | some i => some (i + 1)
    | none => if c = '.' then some 0 else none

/-- Models `os.path.splitext(p)[0]` for a bare file name (no directory
separators, as produced by `os.listdir`): split at the last dot, except
that a name whose characters before that dot are all dots (leading-dot
"hidden" names such as `.lvproj`) is not split. -/
def splitext_root (p : String) : String :=
  match lastDotIdx p.data with
  | none => p
  | some i =>
    if (p.data.take i).all (fun c => c = '.') then p else String.mk (p.data.take i)

/-- The `for filename in os.listdir(...)` loop of `_find_project_file`
(conanfile.py lines 35-38): `filename` starts as `''`, takes each listed
name in turn, and the loop breaks at the first name matching the glob.
Python's loop variable survives the loop, so with no match the final
value is the last listed name (or `''` for an empty listing). -/
def find_loop : List String → String
  | [] => ""
  | [f] => f
  | f :: g :: rest => if fnmatch_lvproj f then f else find_loop (g :: rest)

/-- Embeds `_find_project_file` (conanfile.py lines 34-39) as a function
of the directory listing: run the search loop, then return
`os.path.splitext(filename)[0]`. -/
def find_project_file (listing : List String) : String :=
  splitext_root (find_loop listing)

/-- Models Python `str.lower()` on the ASCII range (the only range
exercised by this recipe): lower-case every character. -/
def py_lower (s : String) : String :=
  String.mk (s.data.map Char.toLower)

/-- Models Python `str.replace(' ', '_')`: the pattern is a single
character, so each space character is replaced by an underscore. -/
def py_replace_space_underscore (s : String) : String :=
  String.mk (s.data.map (fun c => if c = ' ' then '_' else c))

/-- Embeds `set_name` (conanfile.py line 86):
`self._find_project_file(self.recipe_folder).lower().replace(' ','_')`,
as a function of the recipe folder's directory listing. -/
def set_name (listing : List String) : String :=
  py_replace_space_underscore (py_lower (find_project_file listing))

/-- Characters Python `int(str)` strips from both ends (the ASCII
whitespace characters; no other code points are exercised here). -/
def isPySpace (c : Char) : Bool :=
  c = ' ' || c = '\t' || c = '\n' || c = '\r' || c = '\x0b' || c = '\x0c'

/-- Strip `isPySpace` characters from both ends of a character list. -/
def pyStrip (cs : List Char) : List Char :=
  ((cs.dropWhile isPySpace).reverse.dropWhile isPySpace).reverse

/-- Continuation of the digit grammar of a Python base-10 integer
literal: digits, with single underscores allowed between digits. -/
def pyDigitsRest : List Char → Bool
  | [] => true
  | '_' :: c :: rest => c.isDigit && pyDigitsRest rest
  | c :: rest => c.isDigit && pyDigitsRest rest

/-- Digit grammar of a Python base-10 integer literal body: a nonempty
digit sequence, with single underscores allowed between digits. -/
def pyDigits : List Char → Bool
  | [] => false
  | c :: rest => c.isDigit && pyDigitsRest rest

/-- Base-10 value of a list of digit characters. -/
def digitsVal (cs : List Char) : Nat :=
  cs.foldl (fun a c => 10 * a + (c.toNat - 48)) 0

/-- Models Python `int(s)` in base 10: strip ASCII whitespace, allow an
optional sign, then require a nonempty digit sequence with single
underscores between digits; `none` models the `ValueError` raised on any
other input. -/
def pyInt (s : String) : Option Int :=
  let cs := pyStrip s.data
  match cs with
  | '+' :: rest =>
    if pyDigits rest then some (Int.ofNat (digitsVal (rest.filter (fun c => c != '_')))) else none
  | '-' :: rest =>
    if pyDigits rest then some (-(Int.ofNat (digitsVal (rest.filter (fun c => c != '_'))))) else none
  | _ =>
    if pyDigits cs then some (Int.ofNat (digitsVal (cs.filter (fun c => c != '_')))) else none

/-- Helper for `py_split_dot`: walk the characters, collecting the
current (reversed) segment, and emit a segment at each `'.'`. -/
def splitDotAux : List Char → List Char → List String
  | [], acc => [String.mk acc.reverse]
  | '.' :: rest, acc => String.mk acc.reverse :: splitDotAux rest []
  | c :: rest, acc => splitDotAux rest (c :: acc)

/-- Models Python `s.split('.')`: split at every dot, keeping empty
segments, so `''.split('.')` is `['']`. -/
def py_split_dot (s : String) : List String :=
  splitDotAux s.data []

/-- Python-level failure surfaced by the version derivation: a
propagated git failure, or a `ValueError` from tuple unpacking or from
`int` parsing. -/
inductive PyErr where
  | gitFailure : String → PyErr
  | valueError : String → PyErr
deriving DecidableEq

/-- Embeds `set_version` (conanfile.py lines 88-113) as a function of
the git oracle `run`, which maps each git command line to its output or
to a failure (`tools.Git.run` raising).  The `try` block covers only the
branch query; failures of the later queries propagate.  The string
stored in `LabVIEWConanExtension.branch` is the branch query's output. -/
def set_version (run : String → Except String String) : Except PyErr String :=
  match run "rev-parse --abbrev-ref HEAD" with
  | Except.error _ => Except.ok "0.0.0.1"
  | Except.ok branch =>
    match run "describe --tags --match \"[0-9]*.[0-9]*.[0-9]*\" --abbrev=0" with
    | Except.error e => Except.error (PyErr.gitFailure e)
    | Except.ok tag =>
      match run "rev-parse HEAD" with
      | Except.error e => Except.error (PyErr.gitFailure e)
      | Except.ok current_commit =>
        match run "rev-list --max-parents=0 HEAD" with
        | Except.error e => Except.error (PyErr.gitFailure e)
        | Except.ok first_commit =>
          match run ("rev-list --count " ++ first_commit ++ " " ++ current_commit) with
          | Except.error e => Except.error (PyErr.gitFailure e)
          | Except.ok commit =>
            if branch = "master" then
              Except.ok (tag ++ "." ++ commit)
            else
              match py_split_dot tag with
              | [major, minor, fix] =>
                match pyInt fix with
                | some n =>
                  Except.ok (String.intercalate "." [major, minor, toString (n + 1), commit])
                | none =>
                  Except.error (PyErr.valueError ("invalid literal for int() with base 10: " ++ fix))
              | _ => Except.error (PyErr.valueError "values to unpack")

/-- Observable effects of the build/package lifecycle hooks. -/
inductive HookAction where
  | runViBuild : HookAction
  | copyBuildToLib : HookAction
deriving DecidableEq

/-- Embeds `build` (conanfile.py lines 135-144) as a function of the
`os` setting: on Windows it runs the VI build, otherwise it raises
`Exception("OS %s is not supported..." % (str(self.settings.os)))`
without performing any action. -/
def build (os : String) : Except String (List HookAction) :=
  if os = "Windows" then Except.ok [HookAction.runViBuild]
  else Except.error ("OS " ++ os ++ " is not supported...")

/-- Embeds `package` (conanfile.py lines 147-155) as a function of the
`os` setting: on Windows it copies the build output into `lib`,
otherwise it raises the same exception without performing any action. -/
def package (os : String) : Except String (List HookAction) :=
  if os = "Windows" then Except.ok [HookAction.copyBuildToLib]
  else Except.error ("OS " ++ os ++ " is not supported...")

/-- Models `os.path.join(a, b)` (Windows flavour) for the case arising
here: `b` is a bare file name, so the two parts are joined with a `\`
separator unless `a` is empty or already ends in a separator. -/
def os_path_join (a b : String) : String :=
  if a = "" then b
  else if List.isSuffixOf ['\\'] a.data || List.isSuffixOf ['/'] a.data ||
      List.isSuffixOf [':'] a.data then a ++ b
  else a ++ "\\" ++ b

/-- Embeds the `build_params` accumulation of `_run_vi_build`
(conanfile.py lines 63-68) as a function of `self.version`, the cached
`LabVIEWConanExtension.branch`, `self.source_folder` and the source
folder's directory listing, following the `+=` chain of the source. -/
def build_params (version branch source_folder : String) (listing : List String) : String :=
  let p := " -Version \"" ++ version ++ "\""
  let p := p ++ " -Branch \"" ++ branch ++ "\""
  let p := if branch != "master" then p ++ " -Debug \"True\"" else p
  p ++ " \"" ++ os_path_join source_folder (find_project_file listing ++ ".lvproj") ++ "\""

/-- The fixed parameter grammar stated by the spec: a `-Version`
parameter, a `-Branch` parameter, an optional `-Debug "True"` parameter,
and the quoted project path. -/
def param_grammar (version branch path : String) (debug : Bool) : String :=
  " -Version \"" ++ version ++ "\"" ++ " -Branch \"" ++ branch ++ "\"" ++
    (if debug then " -Debug \"True\"" else "") ++ " \"" ++ path ++ "\""

/-- Models Python string slicing `s[i:j]` for `0 ≤ i ≤ j`: take the
characters from index `i` (inclusive) to `j` (exclusive), clamped to the
string's length. -/
def py_slice (s : String) (i j : Nat) : String :=
  String.mk ((s.data.drop i).take (j - i))

/-- Embeds `_get_labview_version` (conanfile.py lines 42-46) as a
function of the `LVVersion` attribute read from the first `Project`
element of the parsed project file: return `'20' + version[0:2]`. -/
def get_labview_version (lvversion : String) : String :=
  "20" ++ py_slice lvversion 0 2

instance {ε α : Type} [DecidableEq ε] [DecidableEq α] : DecidableEq (Except ε α) := fun x y =>
  match x, y with
  | Except.error a, Except.error b =>
    if h : a = b then Decidable.isTrue (congrArg Except.error h)
    else Decidable.isFalse (fun hh => h (Except.error.inj hh))
  | Except.ok a, Except.ok b =>
    if h : a = b then Decidable.isTrue (congrArg Except.ok h)
    else Decidable.isFalse (fun hh => h (Except.ok.inj hh))
  | Except.error _, Except.ok _ => Decidable.isFalse (fun hh => Except.noConfusion hh)
  | Except.ok _, Except.error _ => Decidable.isFalse (fun hh => Except.noConfusion hh)

/-- A concrete git oracle: on branch `master`, latest matching tag
`1.2.3`, and 5 commits between the root commit and `HEAD`. -/
def git_run_master : String → Except String String := fun cmd =>
  if cmd = "rev-parse --abbrev-ref HEAD" then Except.ok "master"
  else if cmd = "describe --tags --match \"[0-9]*.[0-9]*.[0-9]*\" --abbrev=0" then Except.ok "1.2.3"
  else if cmd = "rev-parse HEAD" then Except.ok "abc123"
  else if cmd = "rev-list --max-parents=0 HEAD" then Except.ok "root00"
  else if cmd = "rev-list --count root00 abc123" then Except.ok "5"
  else Except.error "unexpected command"

/-- A concrete git oracle: on branch `feature`, latest matching tag
`1.2.3`, and 5 commits between the root commit and `HEAD`. -/
def git_run_feature : String → Except String String := fun cmd =>
  if cmd = "rev-parse --abbrev-ref HEAD" then Except.ok "feature"
  else if cmd = "describe --tags --match \"[0-9]*.[0-9]*.[0-9]*\" --abbrev=0" then Except.ok "1.2.3"
  else if cmd = "rev-parse HEAD" then Except.ok "abc123"
  else if cmd = "rev-list --max-parents=0 HEAD" then Except.ok "root00"
  else if cmd = "rev-list --count root00 abc123" then Except.ok "5"
  else Except.error "unexpected command"

/-- A concrete git oracle for a directory with no repository: every git
command fails. -/
def git_run_norepo : String → Except String String := fun _ =>
  Except.error "fatal: not a git repository"

/-- A concrete git oracle: on branch `master`, with a latest matching
tag `1a.2.3` whose major component is not numeric. -/
def git_run_badtag : String → Except String String := fun cmd =>
  if cmd = "rev-parse --abbrev-ref HEAD" then Except.ok "master"
  else if cmd = "describe --tags --match \"[0-9]*.[0-9]*.[0-9]*\" --abbrev=0" then Except.ok "1a.2.3"
  else if cmd = "rev-parse HEAD" then Except.ok "abc123"
  else if cmd = "rev-list --max-parents=0 HEAD" then Except.ok "root00"
  else if cmd = "rev-list --count root00 abc123" then Except.ok "5"
  else Except.error "unexpected command"

/-- A concrete git oracle: on branch `feature`, with a latest matching
tag `1.2.3x` whose patch component is not numeric. -/
def git_run_badfix : String → Except String String := fun cmd =>
  if cmd = "rev-parse --abbrev-ref HEAD" then Except.ok "feature"
  else if cmd = "describe --tags --match \"[0-9]*.[0-9]*.[0-9]*\" --abbrev=0" then Except.ok "1.2.3x"
  else if cmd = "rev-parse HEAD" then Except.ok "abc123"
  else if cmd = "rev-list --max-parents=0 HEAD" then Except.ok "root00"
  else if cmd = "rev-list --count root00 abc123" then Except.ok "5"
  else Except.error "unexpected command"

example : set_version git_run_master = Except.ok "1.2.3.5" := by decide
example : set_version git_run_feature = Except.ok "1.2.4.5" := by decide
example : set_version git_run_norepo = Except.ok "0.0.0.1" := by decide
example : set_version git_run_badtag = Except.ok "1a.2.3.5" := by decide
example : set_version git_run_badfix =
    Except.error (PyErr.valueError "invalid literal for int() with base 10: 3x") := by decide

/-- Unfolding `String.intercalate` on a four-element list. -/
theorem intercalate_dot_four (a b c d : String) :
    String.intercalate "." [a, b, c, d] = a ++ "." ++ b ++ "." ++ c ++ "." ++ d := rfl

/-- C1: when branch resolution succeeds with the primary branch
`master`, `set_version` sets the version to the most recent matching
tag, a dot, and the commit count since the root commit. -/
theorem set_version_primary_branch
    (run : String → Except String String) (tag head root cnt : String)
    (hb : run "rev-parse --abbrev-ref HEAD" = Except.ok "master")
    (ht : run "describe --tags --match \"[0-9]*.[0-9]*.[0-9]*\" --abbrev=0" = Except.ok tag)
    (hh : run "rev-parse HEAD" = Except.ok head)
    (hr : run "rev-list --max-parents=0 HEAD" = Except.ok root)
    (hc : run ("rev-list --count " ++ root ++ " " ++ head) = Except.ok cnt) :
    set_version run = Except.ok (tag ++ "." ++ cnt) := by
  simp only [set_version, hb, ht, hh, hr, hc, if_true]

/-- Witness for C1: for the concrete `master` oracle with tag `1.2.3`
and commit count 5, the version is `1.2.3.5`. -/
theorem set_version_primary_branch_witness :
    set_version git_run_master = Except.ok "1.2.3.5" := by
  rw [set_version_primary_branch git_run_master "1.2.3" "abc123" "root00" "5"
    rfl rfl rfl rfl rfl]
  decide

/-- C2: when branch resolution succeeds with a non-primary branch,
`set_version` splits the tag into major, minor and patch, increments the
patch by one, and sets the version to `major.minor.(patch+1).count`. -/
theorem set_version_nonprimary_branch_bumps_patch
    (run : String → Except String String)
    (branch tag head root cnt major minor fix : String) (n : Int)
    (hb : run "rev-parse --abbrev-ref HEAD" = Except.ok branch)
    (hbm : branch ≠ "master")
    (ht : run "describe --tags --match \"[0-9]*.[0-9]*.[0-9]*\" --abbrev=0" = Except.ok tag)
    (hh : run "rev-parse HEAD" = Except.ok head)
    (hr : run "rev-list --max-parents=0 HEAD" = Except.ok root)
    (hc : run ("rev-list --count " ++ root ++ " " ++ head) = Except.ok cnt)
    (hsplit : py_split_dot tag = [major, minor, fix])
    (hfix : pyInt fix = some n) :
    set_version run = Except.ok (major ++ "." ++ minor ++ "." ++ toString (n + 1) ++ "." ++ cnt) := by
  simp only [set_version, hb, ht, hh, hr, hc, hbm, if_neg, if_false, hsplit, hfix,
    intercalate_dot_four]

/-- Witness for C2: for the concrete `feature` oracle with tag `1.2.3`
and commit count 5, the version is `1.2.4.5`. -/
theorem set_version_nonprimary_branch_bumps_patch_witness :
    set_version git_run_feature = Except.ok "1.2.4.5" := by
  rw [set_version_nonprimary_branch_bumps_patch git_run_feature
    "feature" "1.2.3" "abc123" "root00" "5" "1" "2" "3" 3
    rfl (by decide) rfl rfl rfl rfl (by decide) (by decide)]
  decide

/-- C5: when the branch query fails (e.g. no repository present),
`set_version` does not propagate the failure but sets the version to the
fixed fallback string `0.0.0.1`. -/
theorem set_version_fallback
    (run : String → Except String String) (e : String)
    (hb : run "rev-parse --abbrev-ref HEAD" = Except.error e) :
    set_version run = Except.ok "0.0.0.1" := by
  unfold set_version
  rw [hb]

/-- Witness for C5: the oracle on which every git command fails yields
the fallback version. -/
theorem set_version_fallback_witness :
    set_version git_run_norepo = Except.ok "0.0.0.1" :=
  set_version_fallback git_run_norepo "fatal: not a git repository" rfl

/-- Counterexample to C6 as stated: branch resolution succeeds on
`master`, the tag `1a.2.3` has a non-numeric major component, and yet
`set_version` raises no error: the tag is used verbatim and the version
string `1a.2.3.5` is produced. -/
theorem set_version_nonnumeric_tag_counterexample :
    git_run_badtag "rev-parse --abbrev-ref HEAD" = Except.ok "master" ∧
    "1a" ∈ py_split_dot "1a.2.3" ∧ pyInt "1a" = none ∧
    set_version git_run_badtag = Except.ok "1a.2.3.5" := by decide

/-- C6 (amended): when branch resolution succeeds with a non-primary
branch and the tag splits into exactly three dot-separated components
whose patch component is non-numeric, `set_version` raises a fatal parse
error rather than producing a version string. -/
theorem set_version_nonnumeric_patch_error
    (run : String → Except String String)
    (branch tag head root cnt major minor fix : String)
    (hb : run "rev-parse --abbrev-ref HEAD" = Except.ok branch)
    (hbm : branch ≠ "master")
    (ht : run "describe --tags --match \"[0-9]*.[0-9]*.[0-9]*\" --abbrev=0" = Except.ok tag)
    (hh : run "rev-parse HEAD" = Except.ok head)
    (hr : run "rev-list --max-parents=0 HEAD" = Except.ok root)
    (hc : run ("rev-list --count " ++ root ++ " " ++ head) = Except.ok cnt)
    (hsplit : py_split_dot tag = [major, minor, fix])
    (hfix : pyInt fix = none) :
    set_version run =
      Except.error (PyErr.valueError ("invalid literal for int() with base 10: " ++ fix)) := by
  simp only [set_version, hb, ht, hh, hr, hc, hbm, if_neg, if_false, hsplit, hfix]

/-- Witness for the amended C6: for the concrete `feature` oracle with
tag `1.2.3x`, `set_version` raises the `int` parse error. -/
theorem set_version_nonnumeric_patch_error_witness :
    set_version git_run_badfix =
      Except.error (PyErr.valueError "invalid literal for int() with base 10: 3x") := by
  rw [set_version_nonnumeric_patch_error git_run_badfix
    "feature" "1.2.3x" "abc123" "root00" "5" "1" "2" "3x"
    rfl (by decide) rfl rfl rfl rfl (by decide) (by decide)]
  decide

/-- With no matching name in the listing, the search loop ends with the
last listed name (or `''` for an empty listing). -/
theorem find_loop_no_match (l : List String)
    (h : ∀ f ∈ l, fnmatch_lvproj f = false) :
    find_loop l = l.getLastD "" := by
  induction l with
  | nil => rfl
  | cons a rest ih =>
    cases rest with
    | nil => rfl
    | cons g r2 =>
      rw [List.getLastD_cons]
      show (if fnmatch_lvproj a then a else find_loop (g :: r2)) = _
      rw [h a (List.mem_cons_self a _), if_neg (by simp)]
      rw [ih (fun x hx => h x (List.mem_cons_of_mem a hx))]
      rw [List.getLastD_cons, List.getLastD_cons]

/-- The search loop returns the first name matching the glob, when one
exists. -/
theorem find_loop_first_match (l : List String) (f : String)
    (h : l.find? fnmatch_lvproj = some f) :
    find_loop l = f := by
  induction l with
  | nil => simp at h
  | cons a rest ih =>
    by_cases hf : fnmatch_lvproj a = true
    · rw [List.find?_cons_of_pos rest hf] at h
      injection h with h
      subst h
      cases rest with
      | nil => rfl
      | cons g r2 => show (if fnmatch_lvproj a then a else _) = a; rw [if_pos hf]
    · rw [List.find?_cons_of_neg rest hf] at h
      cases rest with
      | nil => simp at h
      | cons g r2 =>
        show (if fnmatch_lvproj a then a else find_loop (g :: r2)) = f
        rw [if_neg hf]
        exact ih h

/-- Counterexample to C3 as stated: the listing `["readme.txt"]`
contains no name matching the `*.lvproj` glob, yet `_find_project_file`
returns `"readme"`, not the empty string, because Python's loop variable
keeps the last listed name. -/
theorem find_project_file_no_match_counterexample :
    fnmatch_lvproj "readme.txt" = false ∧
    find_project_file ["readme.txt"] = "readme" ∧
    find_project_file ["readme.txt"] ≠ "" := by decide

/-- C3 (amended): on a listing with no name matching the `*.lvproj`
glob, `_find_project_file` returns the empty string when the listing is
empty, and otherwise the base name (extension split off) of the last
file in the listing's iteration order. -/
theorem find_project_file_no_match_behavior (listing : List String)
    (h : ∀ f ∈ listing, fnmatch_lvproj f = false) :
    find_project_file listing = splitext_root (listing.getLastD "") :=
  congrArg splitext_root (find_loop_no_match listing h)

/-- Witness for the amended C3: a two-file listing with no match yields
the last file's base name, and the empty listing yields `""`. -/
theorem find_project_file_no_match_behavior_witness :
    (∀ f ∈ ["alpha.txt", "beta.doc"], fnmatch_lvproj f = false) ∧
    find_project_file ["alpha.txt", "beta.doc"] = "beta" ∧
    find_project_file [] = "" := by
  refine ⟨by decide, ?_, by decide⟩
  rw [find_project_file_no_match_behavior ["alpha.txt", "beta.doc"] (by decide)]
  decide

/-- C4: on a listing whose first `*.lvproj`-matching name (in iteration
order) is `f`, `_find_project_file` returns `f` with its extension
removed (in the sense of `os.path.splitext`); in particular, with
exactly one matching file it returns that file's base name. -/
theorem find_project_file_first_match (listing : List String) (f : String)
    (h : listing.find? fnmatch_lvproj = some f) :
    find_project_file listing = splitext_root f :=
  congrArg splitext_root (find_loop_first_match listing f h)

/-- Witness for C4: in a listing with two matching files, the first one
in iteration order wins and its base name is returned. -/
theorem find_project_file_first_match_witness :
    ["notes.txt", "My Project.lvproj", "z.lvproj"].find? fnmatch_lvproj =
      some "My Project.lvproj" ∧
    find_project_file ["notes.txt", "My Project.lvproj", "z.lvproj"] = "My Project" := by
  refine ⟨by decide, ?_⟩
  rw [find_project_file_first_match ["notes.txt", "My Project.lvproj", "z.lvproj"]
    "My Project.lvproj" (by decide)]
  decide

/-- `Char.ofNat` of a valid code point has that code point as its
numeric value. -/
theorem toNat_ofNat_valid (n : Nat) (h : n.isValidChar) :
    (Char.ofNat n).toNat = n := by
  rw [Char.ofNat, dif_pos h]
  rfl

/-- ASCII lower-casing never produces a space from a non-space. -/
theorem toLower_ne_space (c : Char) (h : c ≠ ' ') : Char.toLower c ≠ ' ' := by
  unfold Char.toLower
  show (if c.toNat ≥ 65 ∧ c.toNat ≤ 90 then Char.ofNat (c.toNat + 32) else c) ≠ ' '
  split
  · rename_i hrange
    intro heq
    have hv : (Char.toNat c + 32).isValidChar := Or.inl (by omega)
    have h32 := congrArg Char.toNat heq
    rw [toNat_ofNat_valid _ hv] at h32
    have hsp : Char.toNat ' ' = 32 := rfl
    rw [hsp] at h32
    omega
  · exact h

/-- Lower-casing first and then replacing spaces is the same, character
by character, as the single pass "underscore on space, lower-case
otherwise". -/
theorem lower_then_replace (c : Char) :
    (if Char.toLower c = ' ' then '_' else Char.toLower c) =
      (if c = ' ' then '_' else Char.toLower c) := by
  by_cases h : c = ' '
  · subst h; rfl
  · rw [if_neg (toLower_ne_space c h), if_neg h]

/-- C7: `set_name` is the discovered project file's base name with every
character lower-cased and every space replaced by an underscore; the
file `My Project.lvproj` yields the name `my_project`. -/
theorem set_name_lowercases_and_underscores :
    set_name ["My Project.lvproj"] = "my_project" ∧
    ∀ listing : List String,
      (set_name listing).data =
        (find_project_file listing).data.map
          (fun c => if c = ' ' then '_' else Char.toLower c) := by
  refine ⟨by decide, fun listing => ?_⟩
  show (((find_project_file listing).data.map Char.toLower).map
      (fun c => if c = ' ' then '_' else c)) = _
  rw [List.map_map]
  have hfun : ((fun c => if c = ' ' then '_' else c) ∘ Char.toLower) =
      (fun c => if c = ' ' then '_' else Char.toLower c) :=
    funext (fun c => lower_then_replace c)
  rw [hfun]

/-- C8: for every non-Windows `os` setting, both `build` and `package`
raise and perform no action; on Windows neither raises on the OS check
and each proceeds with its single effect. -/
theorem build_package_require_windows (os : String) :
    (os ≠ "Windows" →
      build os = Except.error ("OS " ++ os ++ " is not supported...") ∧
      package os = Except.error ("OS " ++ os ++ " is not supported...")) ∧
    build "Windows" = Except.ok [HookAction.runViBuild] ∧
    package "Windows" = Except.ok [HookAction.copyBuildToLib] := by
  refine ⟨fun h => ⟨?_, ?_⟩, by decide, by decide⟩
  · rw [build, if_neg h]
  · rw [package, if_neg h]

/-- Witness for C8: on the `Linux` setting both hooks raise the
unsupported-OS exception. -/
theorem build_package_require_windows_witness :
    build "Linux" = Except.error "OS Linux is not supported..." ∧
    package "Linux" = Except.error "OS Linux is not supported..." := by
  have h := (build_package_require_windows "Linux").1 (by decide)
  exact ⟨h.1.trans (by decide), h.2.trans (by decide)⟩

/-- C9: the parameter string built by `_run_vi_build` follows the fixed
grammar: a `-Version` parameter carrying the recipe version, a `-Branch`
parameter carrying the cached branch name, the `-Debug "True"` parameter
exactly when the cached branch is not `master`, and the quoted project
path. -/
theorem build_params_grammar (version branch source_folder : String)
    (listing : List String) :
    build_params version branch source_folder listing =
      param_grammar version branch
        (os_path_join source_folder (find_project_file listing ++ ".lvproj"))
        (branch != "master") := by
  simp only [build_params, param_grammar]
  cases hb : (branch != "master") with
  | true => rfl
  | false => simp

/-- C10: `_get_labview_version` returns `'20'` followed by the first two
characters of the `LVVersion` attribute, hence a string of length 4
whenever the attribute has at least two characters. -/
theorem get_labview_version_shape (a : String) :
    (get_labview_version a).data = '2' :: '0' :: a.data.take 2 ∧
    (2 ≤ a.length → (get_labview_version a).length = 4) := by
  constructor
  · show "20".data ++ ((a.data.drop 0).take (2 - 0)) = '2' :: '0' :: a.data.take 2
    rw [List.drop_zero]
    rfl
  · intro h
    show ("20".data ++ ((a.data.drop 0).take (2 - 0))).length = 4
    have h2 : 2 ≤ a.data.length := h
    rw [List.drop_zero, List.length_append, List.length_take, Nat.min_eq_left h2]
    rfl

/-- Witness for C10: the attribute value `19.0` yields `2019`, a string
of length 4. -/
theorem get_labview_version_shape_witness :
    get_labview_version "19.0" = "2019" ∧ (get_labview_version "19.0").length = 4 :=
  ⟨by decide, (get_labview_version_shape "19.0").2 (by decide)⟩

example : find_project_file [] = "" := by decide
example : find_project_file ["readme.txt"] = "readme" := by decide
example : find_project_file ["a.txt", "My Project.lvproj", "z.lvproj"] = "My Project" := by decide
example : find_project_file [".lvproj"] = ".lvproj" := by decide
example : set_name ["My Project.lvproj"] = "my_project" := by decide
example : pyInt "3" = some 3 := by decide
example : pyInt " -4 " = some (-4) := by decide
example : pyInt "3x" = none := by decide
example : pyInt "1_0" = some 10 := by decide
example : get_labview_version "19.0" = "2019" := by decide
